import Mathlib

/-!
Verification of the typed data-modeling layer of a RabbitMQ HTTP API client
(`src/commons.rs`, `src/requests.rs`, `src/responses.rs`).

The embedding is shallow: each Rust function is translated into an executable
Lean definition over an explicit JSON value model. JSON numbers are modelled
as integers (`Int`); every behavior the theorems below exercise is independent
of non-integer numerics. `serde_json::Map` values are modelled as association
lists (`List (String × Json)`): lookup returns the value of the first entry
with the key, `insert` replaces the value of an existing key in place,
`append` folds the second map into the first with last-write-wins semantics,
matching `BTreeMap::insert` / `BTreeMap::append`. Fallible decoding is
modelled with `Except String`.
-/

set_option autoImplicit false

/-- The JSON value universe exchanged with the HTTP API
    (numbers modelled as integers). -/
inductive Json where
  | null : Json
  | bool : Bool → Json
  | num : Int → Json
  | str : String → Json
  | arr : List Json → Json
  | obj : List (String × Json) → Json

/-- Association-list model of `serde_json::Map<String, Value>`. -/
abbrev Jmap := List (String × Json)

/-- Key lookup: the value of the first entry carrying the key. -/
def mapLookup : Jmap → String → Option Json
  | [], _ => none
  | (k, v) :: rest, key => if key = k then some v else mapLookup rest key

/-- `Map::insert`: replace the value of an existing key, else add the entry. -/
def mapInsert : Jmap → String → Json → Jmap
  | [], k, v => [(k, v)]
  | (k', v') :: rest, k, v =>
      if k' = k then (k, v) :: rest else (k', v') :: mapInsert rest k v

/-- `Map::append`: move every entry of the second map into the first;
    on a duplicate key the second map's value wins. -/
def mapAppend (m1 m2 : Jmap) : Jmap :=
  m2.foldl (fun acc kv => mapInsert acc kv.1 kv.2) m1

/-! ## Vocabulary codec (`src/commons.rs`) -/

/-- `SupportedProtocol` from `src/commons.rs`. -/
inductive SupportedProtocol where
  | Clustering
  | AMQP
  | AMQPWithTLS
  | Stream
  | StreamWithTLS
  | MQTT
  | MQTTWithTLS
  | STOMP
  | STOMPWithTLS
  | MQTTOverWebSockets
  | MQTTOverWebSocketsWithTLS
  | STOMPOverWebsockets
  | STOMPOverWebsocketsWithTLS
  | Prometheus
  | PrometheusWithTLS
  | HTTP
  | HTTPWithTLS
  | Other : String → SupportedProtocol
  deriving DecidableEq

def SUPPORTED_PROTOCOL_CLUSTERING : String := "clustering"
def SUPPORTED_PROTOCOL_AMQP : String := "amqp"
def SUPPORTED_PROTOCOL_AMQP_WITH_TLS : String := "amqps"
def SUPPORTED_PROTOCOL_STREAM : String := "stream"
def SUPPORTED_PROTOCOL_STREAM_WITH_TLS : String := "stream/ssl"
def SUPPORTED_PROTOCOL_MQTT : String := "mqtt"
def SUPPORTED_PROTOCOL_MQTT_WITH_TLS : String := "mqtt/ssl"
def SUPPORTED_PROTOCOL_MQTT_OVER_WEBSOCKETS : String := "http/web-mqtt"
def SUPPORTED_PROTOCOL_MQTT_OVER_WEBSOCKETS_WITH_TLS : String := "https/web-mqtt"
def SUPPORTED_PROTOCOL_STOMP : String := "stomp"
def SUPPORTED_PROTOCOL_STOMP_WITH_TLS : String := "stomp/ssl"
def SUPPORTED_PROTOCOL_STOMP_OVER_WEBSOCKETS : String := "http/stomp-mqtt"
def SUPPORTED_PROTOCOL_STOMP_OVER_WEBSOCKETS_WITH_TLS : String := "https/stomp-mqtt"
def SUPPORTED_PROTOCOL_PROMETHEUS : String := "http/prometheus"
def SUPPORTED_PROTOCOL_PROMETHEUS_WITH_TLS : String := "https/prometheus"
def SUPPORTED_PROTOCOL_HTTP : String := "http"
def SUPPORTED_PROTOCOL_HTTP_WITH_TLS : String := "https"

/-- `impl From<&str> for SupportedProtocol` (the decode direction). -/
def SupportedProtocol.fromStr (value : String) : SupportedProtocol :=
  if value = SUPPORTED_PROTOCOL_CLUSTERING then .Clustering
  else if value = SUPPORTED_PROTOCOL_AMQP then .AMQP
  else if value = SUPPORTED_PROTOCOL_AMQP_WITH_TLS then .AMQPWithTLS
  else if value = SUPPORTED_PROTOCOL_STREAM then .Stream
  else if value = SUPPORTED_PROTOCOL_STREAM_WITH_TLS then .StreamWithTLS
  else if value = SUPPORTED_PROTOCOL_MQTT then .MQTT
  else if value = SUPPORTED_PROTOCOL_MQTT_WITH_TLS then .MQTTWithTLS
  else if value = SUPPORTED_PROTOCOL_STOMP then .STOMP
  else if value = SUPPORTED_PROTOCOL_STOMP_WITH_TLS then .STOMPWithTLS
  else if value = SUPPORTED_PROTOCOL_MQTT_OVER_WEBSOCKETS then .MQTTOverWebSockets
  else if value = SUPPORTED_PROTOCOL_MQTT_OVER_WEBSOCKETS_WITH_TLS then .MQTTOverWebSocketsWithTLS
  else if value = SUPPORTED_PROTOCOL_STOMP_OVER_WEBSOCKETS then .STOMPOverWebsockets
  else if value = SUPPORTED_PROTOCOL_STOMP_OVER_WEBSOCKETS_WITH_TLS then .STOMPOverWebsocketsWithTLS
  else if value = SUPPORTED_PROTOCOL_PROMETHEUS then .Prometheus
  else if value = SUPPORTED_PROTOCOL_PROMETHEUS_WITH_TLS then .PrometheusWithTLS
  else if value = SUPPORTED_PROTOCOL_HTTP then .HTTP
  else if value = SUPPORTED_PROTOCOL_HTTP_WITH_TLS then .HTTPWithTLS
  else .Other value

/-- `impl From<SupportedProtocol> for String` (the encode direction). -/
def SupportedProtocol.toStr : SupportedProtocol → String
  | .Clustering => SUPPORTED_PROTOCOL_CLUSTERING
  | .AMQP => SUPPORTED_PROTOCOL_AMQP
  | .AMQPWithTLS => SUPPORTED_PROTOCOL_AMQP_WITH_TLS
  | .Stream => SUPPORTED_PROTOCOL_STREAM
  | .StreamWithTLS => SUPPORTED_PROTOCOL_STREAM_WITH_TLS
  | .MQTT => SUPPORTED_PROTOCOL_MQTT
  | .MQTTWithTLS => SUPPORTED_PROTOCOL_MQTT_WITH_TLS
  | .STOMP => SUPPORTED_PROTOCOL_STOMP
  | .STOMPWithTLS => SUPPORTED_PROTOCOL_STOMP_WITH_TLS
  | .MQTTOverWebSockets => SUPPORTED_PROTOCOL_MQTT_OVER_WEBSOCKETS
  | .MQTTOverWebSocketsWithTLS => SUPPORTED_PROTOCOL_MQTT_OVER_WEBSOCKETS_WITH_TLS
  | .STOMPOverWebsockets => SUPPORTED_PROTOCOL_STOMP_OVER_WEBSOCKETS
  | .STOMPOverWebsocketsWithTLS => SUPPORTED_PROTOCOL_STOMP_OVER_WEBSOCKETS_WITH_TLS
  | .Prometheus => SUPPORTED_PROTOCOL_PROMETHEUS
  | .PrometheusWithTLS => SUPPORTED_PROTOCOL_PROMETHEUS_WITH_TLS
  | .HTTP => SUPPORTED_PROTOCOL_HTTP
  | .HTTPWithTLS => SUPPORTED_PROTOCOL_HTTP_WITH_TLS
  | .Other s => s

/-- True on every known (non-extension) variant, false on `Other`. -/
def SupportedProtocol.isKnown : SupportedProtocol → Bool
  | .Other _ => false
  | _ => true

/-- The canonical wire strings the decode direction recognises. -/
def supportedProtocolKnownStrings : List String :=
  [SUPPORTED_PROTOCOL_CLUSTERING, SUPPORTED_PROTOCOL_AMQP,
   SUPPORTED_PROTOCOL_AMQP_WITH_TLS, SUPPORTED_PROTOCOL_STREAM,
   SUPPORTED_PROTOCOL_STREAM_WITH_TLS, SUPPORTED_PROTOCOL_MQTT,
   SUPPORTED_PROTOCOL_MQTT_WITH_TLS, SUPPORTED_PROTOCOL_STOMP,
   SUPPORTED_PROTOCOL_STOMP_WITH_TLS, SUPPORTED_PROTOCOL_MQTT_OVER_WEBSOCKETS,
   SUPPORTED_PROTOCOL_MQTT_OVER_WEBSOCKETS_WITH_TLS,
   SUPPORTED_PROTOCOL_STOMP_OVER_WEBSOCKETS,
   SUPPORTED_PROTOCOL_STOMP_OVER_WEBSOCKETS_WITH_TLS,
   SUPPORTED_PROTOCOL_PROMETHEUS, SUPPORTED_PROTOCOL_PROMETHEUS_WITH_TLS,
   SUPPORTED_PROTOCOL_HTTP, SUPPORTED_PROTOCOL_HTTP_WITH_TLS]

/-- `ExchangeType` from `src/commons.rs`. -/
inductive ExchangeType where
  | Fanout
  | Topic
  | Direct
  | Headers
  | ConsistentHashing
  | ModulusHash
  | Random
  | LocalRandom
  | JmsTopic
  | RecentHistory
  | DelayedMessage
  | MessageDeduplication
  | Plugin : String → ExchangeType
  deriving DecidableEq

def EXCHANGE_TYPE_FANOUT : String := "fanout"
def EXCHANGE_TYPE_TOPIC : String := "topic"
def EXCHANGE_TYPE_DIRECT : String := "direct"
def EXCHANGE_TYPE_HEADERS : String := "headers"
def EXCHANGE_TYPE_CONSISTENT_HASHING : String := "x-consistent-hash"
def EXCHANGE_TYPE_MODULUS_HASH : String := "x-modulus-hash"
def EXCHANGE_TYPE_RANDOM : String := "x-random"
def EXCHANGE_TYPE_JMS_TOPIC : String := "x-jms-topic"
def EXCHANGE_TYPE_LOCAL_RANDOM : String := "x-local-random"
def EXCHANGE_TYPE_RECENT_HISTORY : String := "x-recent-history"
def EXCHANGE_TYPE_DELAYED_MESSAGE : String := "x-delayed-message"
def EXCHANGE_TYPE_MESSAGE_DEDUPLICATION : String := "x-message-deduplication"

/-- `impl From<&str> for ExchangeType` (the decode direction). -/
def ExchangeType.fromStr (value : String) : ExchangeType :=
  if value = EXCHANGE_TYPE_FANOUT then .Fanout
  else if value = EXCHANGE_TYPE_TOPIC then .Topic
  else if value = EXCHANGE_TYPE_DIRECT then .Direct
  else if value = EXCHANGE_TYPE_HEADERS then .Headers
  else if value = EXCHANGE_TYPE_CONSISTENT_HASHING then .ConsistentHashing
  else if value = EXCHANGE_TYPE_MODULUS_HASH then .ModulusHash
  else if value = EXCHANGE_TYPE_RANDOM then .Random
  else if value = EXCHANGE_TYPE_LOCAL_RANDOM then .LocalRandom
  else if value = EXCHANGE_TYPE_JMS_TOPIC then .JmsTopic
  else if value = EXCHANGE_TYPE_RECENT_HISTORY then .RecentHistory
  else if value = EXCHANGE_TYPE_DELAYED_MESSAGE then .DelayedMessage
  else if value = EXCHANGE_TYPE_MESSAGE_DEDUPLICATION then .MessageDeduplication
  else .Plugin value

/-- `impl From<ExchangeType> for String` (the encode direction). -/
def ExchangeType.toStr : ExchangeType → String
  | .Fanout => EXCHANGE_TYPE_FANOUT
  | .Topic => EXCHANGE_TYPE_TOPIC
  | .Direct => EXCHANGE_TYPE_DIRECT
  | .Headers => EXCHANGE_TYPE_HEADERS
  | .ConsistentHashing => EXCHANGE_TYPE_CONSISTENT_HASHING
  | .ModulusHash => EXCHANGE_TYPE_MODULUS_HASH
  | .Random => EXCHANGE_TYPE_RANDOM
  | .LocalRandom => EXCHANGE_TYPE_LOCAL_RANDOM
  | .JmsTopic => EXCHANGE_TYPE_JMS_TOPIC
  | .RecentHistory => EXCHANGE_TYPE_RECENT_HISTORY
  | .DelayedMessage => EXCHANGE_TYPE_DELAYED_MESSAGE
  | .MessageDeduplication => EXCHANGE_TYPE_MESSAGE_DEDUPLICATION
  | .Plugin exchange_type => exchange_type

/-- True on every known (non-plugin) variant, false on `Plugin`. -/
def ExchangeType.isKnown : ExchangeType → Bool
  | .Plugin _ => false
  | _ => true

/-- The canonical wire strings the decode direction recognises. -/
def exchangeTypeKnownStrings : List String :=
  [EXCHANGE_TYPE_FANOUT, EXCHANGE_TYPE_TOPIC, EXCHANGE_TYPE_DIRECT,
   EXCHANGE_TYPE_HEADERS, EXCHANGE_TYPE_CONSISTENT_HASHING,
   EXCHANGE_TYPE_MODULUS_HASH, EXCHANGE_TYPE_RANDOM,
   EXCHANGE_TYPE_LOCAL_RANDOM, EXCHANGE_TYPE_JMS_TOPIC,
   EXCHANGE_TYPE_RECENT_HISTORY, EXCHANGE_TYPE_DELAYED_MESSAGE,
   EXCHANGE_TYPE_MESSAGE_DEDUPLICATION]

/-- `QueueType` from `src/commons.rs` (a closed enumeration). -/
inductive QueueType where
  | Classic
  | Quorum
  | Stream
  deriving DecidableEq

/-- `impl From<&str> for QueueType`: unknown strings default to `Classic`. -/
def QueueType.fromStr (value : String) : QueueType :=
  if value = "classic" then .Classic
  else if value = "quorum" then .Quorum
  else if value = "stream" then .Stream
  else .Classic

/-- `impl From<QueueType> for String`. -/
def QueueType.toStr : QueueType → String
  | .Classic => "classic"
  | .Quorum => "quorum"
  | .Stream => "stream"

/-- The `Serialize` impl of `QueueType`
    (`rename_all(serialize = "lowercase")`), as used by `json!(queue_type)`. -/
def QueueType.toJson (value : QueueType) : Json :=
  match value with
  | .Classic => .str "classic"
  | .Quorum => .str "quorum"
  | .Stream => .str "stream"

/-- `BindingDestinationType` from `src/commons.rs` (a closed enumeration). -/
inductive BindingDestinationType where
  | Queue
  | Exchange
  deriving DecidableEq

/-- `impl From<&str> for BindingDestinationType`: unknown defaults to `Queue`. -/
def BindingDestinationType.fromStr (value : String) : BindingDestinationType :=
  if value = "queue" then .Queue
  else if value = "exchange" then .Exchange
  else .Queue

/-- `impl From<BindingDestinationType> for String`. -/
def BindingDestinationType.toStr : BindingDestinationType → String
  | .Queue => "queue"
  | .Exchange => "exchange"

/-- `PolicyTarget` from `src/commons.rs` (a closed enumeration). -/
inductive PolicyTarget where
  | Queues
  | ClassicQueues
  | QuorumQueues
  | Streams
  | Exchanges
  | All
  deriving DecidableEq

/-- `impl From<&str> for PolicyTarget`: unknown strings default to `Queues`. -/
def PolicyTarget.fromStr (value : String) : PolicyTarget :=
  if value = "queues" then .Queues
  else if value = "classic_queues" then .ClassicQueues
  else if value = "quorum_queues" then .QuorumQueues
  else if value = "streams" then .Streams
  else if value = "exchanges" then .Exchanges
  else if value = "all" then .All
  else .Queues

/-- `impl From<PolicyTarget> for String`. -/
def PolicyTarget.toStr : PolicyTarget → String
  | .Queues => "queues"
  | .ClassicQueues => "classic_queues"
  | .QuorumQueues => "quorum_queues"
  | .Streams => "streams"
  | .Exchanges => "exchanges"
  | .All => "all"

/-- `VirtualHostLimitTarget` from `src/commons.rs` (a closed enumeration). -/
inductive VirtualHostLimitTarget where
  | MaxConnections
  | MaxQueues
  deriving DecidableEq

/-- `impl From<&str> for VirtualHostLimitTarget`:
    unknown strings default to `MaxConnections`. -/
def VirtualHostLimitTarget.fromStr (value : String) : VirtualHostLimitTarget :=
  if value = "max-connections" then .MaxConnections
  else if value = "max-queues" then .MaxQueues
  else .MaxConnections

/-- `impl From<VirtualHostLimitTarget> for String` (via `AsRef<str>`). -/
def VirtualHostLimitTarget.toStr : VirtualHostLimitTarget → String
  | .MaxConnections => "max-connections"
  | .MaxQueues => "max-queues"

/-- `UserLimitTarget` from `src/commons.rs` (a closed enumeration). -/
inductive UserLimitTarget where
  | MaxConnections
  | MaxChannels
  deriving DecidableEq

/-- `impl From<&str> for UserLimitTarget`:
    unknown strings default to `MaxConnections`. -/
def UserLimitTarget.fromStr (value : String) : UserLimitTarget :=
  if value = "max-connections" then .MaxConnections
  else if value = "max-channels" then .MaxChannels
  else .MaxConnections

/-- `impl From<UserLimitTarget> for String` (via `AsRef<str>`). -/
def UserLimitTarget.toStr : UserLimitTarget → String
  | .MaxConnections => "max-connections"
  | .MaxChannels => "max-channels"

/-! ## Resource parameter builder (`src/requests.rs`) -/

/-- `type XArguments = Option<Map<String, Value>>` from `src/requests.rs`. -/
abbrev XArguments := Option Jmap

/-- `QueueParams` from `src/requests.rs`: the queue-declaration bundle. -/
structure QueueParams where
  name : String
  queue_type : QueueType
  durable : Bool
  auto_delete : Bool
  exclusive : Bool
  arguments : XArguments

/-- `QueueParams::combined_args`: start from an empty map, insert the
    `x-queue-type` marker, then append the caller's map. -/
def QueueParams.combined_args (optional_args : XArguments)
    (queue_type : QueueType) : XArguments :=
  let result := mapInsert [] "x-queue-type" queue_type.toJson
  match optional_args with
  | some val => some (mapAppend result val)
  | none => some result

/-- `QueueParams::new_quorum_queue`. -/
def QueueParams.new_quorum_queue (name : String)
    (optional_args : XArguments) : QueueParams :=
  let typ := QueueType.Quorum
  let args := QueueParams.combined_args optional_args typ
  { name := name
    queue_type := QueueType.Quorum
    durable := true
    auto_delete := false
    exclusive := false
    arguments := args }

/-- `QueueParams::new_stream`. -/
def QueueParams.new_stream (name : String)
    (optional_args : XArguments) : QueueParams :=
  let typ := QueueType.Stream
  let args := QueueParams.combined_args optional_args typ
  { name := name
    queue_type := QueueType.Stream
    durable := true
    auto_delete := false
    exclusive := false
    arguments := args }

/-- `QueueParams::new_durable_classic_queue`. -/
def QueueParams.new_durable_classic_queue (name : String)
    (optional_args : XArguments) : QueueParams :=
  let typ := QueueType.Classic
  let args := QueueParams.combined_args optional_args typ
  { name := name
    queue_type := QueueType.Classic
    durable := true
    auto_delete := false
    exclusive := false
    arguments := args }

/-- `QueueParams::new`, the general constructor. -/
def QueueParams.new (name : String) (queue_type : QueueType)
    (durable : Bool) (auto_delete : Bool)
    (optional_args : XArguments) : QueueParams :=
  let args := QueueParams.combined_args optional_args queue_type
  { name := name
    queue_type := queue_type
    durable := durable
    auto_delete := auto_delete
    exclusive := false
    arguments := args }

/-! ## Lookup lemmas for the association-map model -/

theorem mapLookup_mapInsert (m : Jmap) (k : String) (v : Json) (key : String) :
    mapLookup (mapInsert m k v) key = if key = k then some v else mapLookup m key := by
  induction m with
  | nil => simp [mapInsert, mapLookup]
  | cons hd tl ih =>
      obtain ⟨k', v'⟩ := hd
      by_cases hk : k' = k
      · subst hk
        by_cases hkey : key = k' <;> simp [mapInsert, mapLookup, hkey]
      · by_cases hkey : key = k'
        · subst hkey
          simp [mapInsert, mapLookup, hk, Ne.symm hk]
        · simp [mapInsert, mapLookup, hk, hkey, ih]

theorem mapLookup_eq_none_of_not_mem (m : Jmap) (key : String)
    (h : key ∉ m.map Prod.fst) : mapLookup m key = none := by
  induction m with
  | nil => rfl
  | cons hd tl ih =>
      obtain ⟨k, v⟩ := hd
      simp only [List.map_cons, List.mem_cons] at h
      push_neg at h
      simp [mapLookup, h.1, ih h.2]

/-- A `serde_json::Map` holds at most one entry per key; under that invariant
    on the appended map, a key defined there wins, otherwise the base map's
    binding survives. -/
theorem mapLookup_mapAppend (m1 m2 : Jmap) (key : String)
    (hnd : (m2.map Prod.fst).Nodup) :
    mapLookup (mapAppend m1 m2) key =
      match mapLookup m2 key with
      | some v => some v
      | none => mapLookup m1 key := by
  induction m2 generalizing m1 with
  | nil => simp [mapAppend, mapLookup]
  | cons hd tl ih =>
      obtain ⟨k, v⟩ := hd
      simp only [List.map_cons, List.nodup_cons] at hnd
      show mapLookup (mapAppend (mapInsert m1 k v) tl) key = _
      rw [ih _ hnd.2]
      by_cases hkey : key = k
      · subst hkey
        rw [mapLookup_eq_none_of_not_mem tl key hnd.1]
        simp [mapLookup, mapLookup_mapInsert]
      · cases h2 : mapLookup tl key <;>
          simp [mapLookup, mapLookup_mapInsert, hkey, h2]

/-! ## Response shape layer (`src/responses.rs`)

Field extraction follows the semantics of the derived serde decoders over the
modelled JSON universe: a missing required field or a field of the wrong shape
is a decode failure naming the field; a field with a `default` attribute falls
back to its default when absent; `Option` fields decode `null`/absent to
`none`. Unknown keys are ignored (no `deny_unknown_fields` in the source). -/

/-- `fn undefined() -> String` from `src/responses.rs`: the sentinel used as
    the serde default of `Connection::state` and `QueueInfo::node`. -/
def undefined : String := "?"

/-- Required `String` field. -/
def getString (m : Jmap) (k : String) : Except String String :=
  match mapLookup m k with
  | some (.str s) => .ok s
  | some _ => .error k
  | none => .error k

/-- `String` field with a serde `default` function. -/
def getStringD (m : Jmap) (k : String) (d : String) : Except String String :=
  match mapLookup m k with
  | some (.str s) => .ok s
  | some _ => .error k
  | none => .ok d

/-- Required `bool` field. -/
def getBool (m : Jmap) (k : String) : Except String Bool :=
  match mapLookup m k with
  | some (.bool b) => .ok b
  | some _ => .error k
  | none => .error k

/-- Required unsigned integer field of width bound `bound` (e.g. `2^32`). -/
def getUInt (m : Jmap) (k : String) (bound : Int) : Except String Nat :=
  match mapLookup m k with
  | some (.num n) => if 0 ≤ n ∧ n < bound then .ok n.toNat else .error k
  | some _ => .error k
  | none => .error k

/-- Unsigned integer field with serde `default` (zero when absent). -/
def getUIntD (m : Jmap) (k : String) (bound : Int) : Except String Nat :=
  match mapLookup m k with
  | some (.num n) => if 0 ≤ n ∧ n < bound then .ok n.toNat else .error k
  | some _ => .error k
  | none => .ok 0

/-- Numeric field with serde `default`, stored as the modelled JSON number
    (used for the `f32` gauge, whose value no theorem inspects). -/
def getNumD (m : Jmap) (k : String) : Except String Int :=
  match mapLookup m k with
  | some (.num n) => .ok n
  | some _ => .error k
  | none => .ok 0

/-- `Option<String>` field: absent or `null` decodes to `none`. -/
def getOptString (m : Jmap) (k : String) : Except String (Option String) :=
  match mapLookup m k with
  | some (.str s) => .ok (some s)
  | some .null => .ok none
  | some _ => .error k
  | none => .ok none

/-- Decode a JSON array of strings (`Vec<String>`). -/
def decodeStringList (k : String) : List Json → Except String (List String)
  | [] => .ok []
  | .str s :: rest => do
      let tail ← decodeStringList k rest
      .ok (s :: tail)
  | _ :: _ => .error k

/-- `Option<NodeList>` field: absent or `null` decodes to `none`. -/
def getOptStringList (m : Jmap) (k : String) :
    Except String (Option (List String)) :=
  match mapLookup m k with
  | some (.arr xs) => do
      let l ← decodeStringList k xs
      .ok (some l)
  | some .null => .ok none
  | some _ => .error k
  | none => .ok none

/-- Required map-valued field (`XArguments(pub Map<String, Value>)`). -/
def getObj (m : Jmap) (k : String) : Except String Jmap :=
  match mapLookup m k with
  | some (.obj o) => .ok o
  | some _ => .error k
  | none => .error k

/-- `deserialize_map_or_seq` from `src/responses.rs`: the visitor accepts a
    map payload (its entries); its `visit_seq` returns the type's default (an
    empty map at both instantiation sites) without consuming the `SeqAccess`,
    so the deserializer fails on any sequence that still has elements left
    (`invalid_length` from the value deserializer, `TrailingCharacters` from
    the streaming one) — only the empty sequence decodes to the default. Any
    other shape is an error. -/
def deserialize_map_or_seq (j : Json) : Except String Jmap :=
  match j with
  | .obj kvs => .ok kvs
  | .arr [] => .ok []
  | .arr (_ :: _) => .error "invalid length"
  | _ => .error "map"

/-- `deserialize_message_properties` from `src/responses.rs`. -/
def deserialize_message_properties (j : Json) : Except String Jmap :=
  deserialize_map_or_seq j

/-- `deserialize_runtime_parameter_value` from `src/responses.rs`. -/
def deserialize_runtime_parameter_value (j : Json) : Except String Jmap :=
  deserialize_map_or_seq j

/-- `RuntimeParameter` from `src/responses.rs`. -/
structure RuntimeParameter where
  name : String
  vhost : String
  component : String
  value : Jmap

/-- The derived `Deserialize` of `RuntimeParameter`; the `value` field goes
    through `deserialize_runtime_parameter_value`. -/
def RuntimeParameter.decode (j : Json) : Except String RuntimeParameter :=
  match j with
  | .obj m => do
      let name ← getString m "name"
      let vhost ← getString m "vhost"
      let component ← getString m "component"
      let value ←
        match mapLookup m "value" with
        | some jv => deserialize_runtime_parameter_value jv
        | none => .error "value"
      .ok { name := name, vhost := vhost, component := component,
            value := value }
  | _ => .error "map"

/-- `GetMessage` from `src/responses.rs`. -/
structure GetMessage where
  payload_bytes : Nat
  redelivered : Bool
  exchange : String
  routing_key : String
  message_count : Nat
  properties : Jmap
  payload : String
  payload_encoding : String

/-- The derived `Deserialize` of `GetMessage`; the `properties` field goes
    through `deserialize_message_properties`. -/
def GetMessage.decode (j : Json) : Except String GetMessage :=
  match j with
  | .obj m => do
      let payload_bytes ← getUInt m "payload_bytes" ((2 : Int) ^ 32)
      let redelivered ← getBool m "redelivered"
      let exchange ← getString m "exchange"
      let routing_key ← getString m "routing_key"
      let message_count ← getUInt m "message_count" ((2 : Int) ^ 32)
      let properties ←
        match mapLookup m "properties" with
        | some jp => deserialize_message_properties jp
        | none => .error "properties"
      let payload ← getString m "payload"
      let payload_encoding ← getString m "payload_encoding"
      .ok { payload_bytes := payload_bytes, redelivered := redelivered,
            exchange := exchange, routing_key := routing_key,
            message_count := message_count, properties := properties,
            payload := payload, payload_encoding := payload_encoding }
  | _ => .error "map"

/-- `ClientCapabilities` from `src/responses.rs`. -/
structure ClientCapabilities where
  authentication_failure_close : Bool
  basic_nack : Bool
  connection_blocked : Bool
  consumer_cancel_notify : Bool
  exchange_to_exchange_bindings : Bool
  publisher_confirms : Bool

/-- The derived `Deserialize` of `ClientCapabilities`
    (field renames as in the source). -/
def ClientCapabilities.decode (m : Jmap) : Except String ClientCapabilities := do
  let authentication_failure_close ← getBool m "authentication_failure_close"
  let basic_nack ← getBool m "basic.nack"
  let connection_blocked ← getBool m "connection.blocked"
  let consumer_cancel_notify ← getBool m "consumer_cancel_notify"
  let exchange_to_exchange_bindings ← getBool m "exchange_exchange_bindings"
  let publisher_confirms ← getBool m "publisher_confirms"
  .ok { authentication_failure_close := authentication_failure_close,
        basic_nack := basic_nack,
        connection_blocked := connection_blocked,
        consumer_cancel_notify := consumer_cancel_notify,
        exchange_to_exchange_bindings := exchange_to_exchange_bindings,
        publisher_confirms := publisher_confirms }

/-- `ClientProperties` from `src/responses.rs`. -/
structure ClientProperties where
  connection_name : String
  platform : String
  product : String
  version : String
  capabilities : Option ClientCapabilities

/-- The derived `Deserialize` of `ClientProperties`: the four strings carry
    `#[serde(default)]`, `capabilities` is an `Option`. -/
def ClientProperties.decode (m : Jmap) : Except String ClientProperties := do
  let connection_name ← getStringD m "connection_name" ""
  let platform ← getStringD m "platform" ""
  let product ← getStringD m "product" ""
  let version ← getStringD m "version" ""
  let capabilities ←
    match mapLookup m "capabilities" with
    | some (.obj c) => do
        let caps ← ClientCapabilities.decode c
        .ok (some caps)
    | some .null => .ok (none : Option ClientCapabilities)
    | some _ => .error "capabilities"
    | none => .ok (none : Option ClientCapabilities)
  .ok { connection_name := connection_name, platform := platform,
        product := product, version := version,
        capabilities := capabilities }

/-- `Connection` from `src/responses.rs`. -/
structure Connection where
  name : String
  node : String
  state : String
  protocol : String
  username : String
  connected_at : Nat
  server_hostname : String
  server_port : Nat
  client_hostname : String
  client_port : Nat
  channel_max : Nat
  channel_count : Nat
  client_properties : ClientProperties

/-- The required `client_properties` field of `Connection`: a nested map
    decoded through `ClientProperties.decode`. -/
def getClientProperties (m : Jmap) : Except String ClientProperties :=
  match mapLookup m "client_properties" with
  | some (.obj c) => ClientProperties.decode c
  | some _ => .error "client_properties"
  | none => .error "client_properties"

/-- The derived `Deserialize` of `Connection`: `state` carries
    `#[serde(default = "undefined")]`, `channels` carries `#[serde(default)]`,
    renames as in the source. -/
def Connection.decode (j : Json) : Except String Connection :=
  match j with
  | .obj m => do
      let name ← getString m "name"
      let node ← getString m "node"
      let state ← getStringD m "state" undefined
      let protocol ← getString m "protocol"
      let username ← getString m "user"
      let connected_at ← getUInt m "connected_at" ((2 : Int) ^ 64)
      let server_hostname ← getString m "host"
      let server_port ← getUInt m "port" ((2 : Int) ^ 32)
      let client_hostname ← getString m "peer_host"
      let client_port ← getUInt m "peer_port" ((2 : Int) ^ 32)
      let channel_max ← getUInt m "channel_max" ((2 : Int) ^ 16)
      let channel_count ← getUIntD m "channels" ((2 : Int) ^ 16)
      let client_properties ← getClientProperties m
      .ok { name := name, node := node, state := state, protocol := protocol,
            username := username, connected_at := connected_at,
            server_hostname := server_hostname, server_port := server_port,
            client_hostname := client_hostname, client_port := client_port,
            channel_max := channel_max, channel_count := channel_count,
            client_properties := client_properties }
  | _ => .error "map"

/-- `QueueInfo` from `src/responses.rs`
    (`consumer_utilisation` is the modelled number of the `f32` gauge). -/
structure QueueInfo where
  name : String
  vhost : String
  queue_type : String
  durable : Bool
  auto_delete : Bool
  exclusive : Bool
  arguments : Jmap
  node : String
  state : String
  leader : Option String
  members : Option (List String)
  online : Option (List String)
  memory : Nat
  consumer_count : Nat
  consumer_utilisation : Int
  exclusive_consumer_tag : Option String
  policy : Option String
  message_bytes : Nat
  message_bytes_persistent : Nat
  message_bytes_ram : Nat
  message_bytes_ready : Nat
  message_bytes_unacknowledged : Nat
  message_count : Nat
  on_disk_message_count : Nat
  in_memory_message_count : Nat
  unacknowledged_message_count : Nat

/-- The derived `Deserialize` of `QueueInfo`: `node` carries
    `#[serde(default = "undefined")]`, the gauges carry `#[serde(default)]`,
    renames as in the source. -/
def QueueInfo.decode (j : Json) : Except String QueueInfo :=
  match j with
  | .obj m => do
      let name ← getString m "name"
      let vhost ← getString m "vhost"
      let queue_type ← getString m "type"
      let durable ← getBool m "durable"
      let auto_delete ← getBool m "auto_delete"
      let exclusive ← getBool m "exclusive"
      let arguments ← getObj m "arguments"
      let node ← getStringD m "node" undefined
      let state ← getStringD m "state" ""
      let leader ← getOptString m "leader"
      let members ← getOptStringList m "members"
      let online ← getOptStringList m "online"
      let memory ← getUIntD m "memory" ((2 : Int) ^ 64)
      let consumer_count ← getUIntD m "consumers" ((2 : Int) ^ 16)
      let consumer_utilisation ← getNumD m "consumer_utilisation"
      let exclusive_consumer_tag ← getOptString m "exclusive_consumer_tag"
      let policy ← getOptString m "policy"
      let message_bytes ← getUIntD m "message_bytes" ((2 : Int) ^ 64)
      let message_bytes_persistent ←
        getUIntD m "message_bytes_persistent" ((2 : Int) ^ 64)
      let message_bytes_ram ← getUIntD m "message_bytes_ram" ((2 : Int) ^ 64)
      let message_bytes_ready ←
        getUIntD m "message_bytes_ready" ((2 : Int) ^ 64)
      let message_bytes_unacknowledged ←
        getUIntD m "message_bytes_unacknowledged" ((2 : Int) ^ 64)
      let message_count ← getUIntD m "messages" ((2 : Int) ^ 64)
      let on_disk_message_count ←
        getUIntD m "messages_persistent" ((2 : Int) ^ 64)
      let in_memory_message_count ← getUIntD m "messages_ram" ((2 : Int) ^ 64)
      let unacknowledged_message_count ←
        getUIntD m "messages_unacknowledged" ((2 : Int) ^ 64)
      .ok { name := name, vhost := vhost, queue_type := queue_type,
            durable := durable, auto_delete := auto_delete,
            exclusive := exclusive, arguments := arguments, node := node,
            state := state, leader := leader, members := members,
            online := online, memory := memory,
            consumer_count := consumer_count,
            consumer_utilisation := consumer_utilisation,
            exclusive_consumer_tag := exclusive_consumer_tag,
            policy := policy, message_bytes := message_bytes,
            message_bytes_persistent := message_bytes_persistent,
            message_bytes_ram := message_bytes_ram,
            message_bytes_ready := message_bytes_ready,
            message_bytes_unacknowledged := message_bytes_unacknowledged,
            message_count := message_count,
            on_disk_message_count := on_disk_message_count,
            in_memory_message_count := in_memory_message_count,
            unacknowledged_message_count := unacknowledged_message_count }
  | _ => .error "map"

/-- `ResourceAlarm` from `src/responses.rs`. -/
structure ResourceAlarm where
  node : String
  resource : String
  deriving DecidableEq

/-- The derived `Deserialize` of `ResourceAlarm`. -/
def ResourceAlarm.decode (j : Json) : Except String ResourceAlarm :=
  match j with
  | .obj m => do
      let node ← getString m "node"
      let resource ← getString m "resource"
      .ok { node := node, resource := resource }
  | _ => .error "map"

/-- Decode a JSON array of resource-alarm records. -/
def decodeResourceAlarms : List Json → Except String (List ResourceAlarm)
  | [] => .ok []
  | j :: rest => do
      let a ← ResourceAlarm.decode j
      let tail ← decodeResourceAlarms rest
      .ok (a :: tail)

/-- `ClusterAlarmCheckDetails` from `src/responses.rs`. -/
structure ClusterAlarmCheckDetails where
  reason : String
  alarms : List ResourceAlarm
  deriving DecidableEq

/-- The derived `Deserialize` of `ClusterAlarmCheckDetails`. -/
def ClusterAlarmCheckDetails.decode (m : Jmap) :
    Except String ClusterAlarmCheckDetails := do
  let reason ← getString m "reason"
  let alarms ←
    match mapLookup m "alarms" with
    | some (.arr xs) => decodeResourceAlarms xs
    | some _ => .error "alarms"
    | none => .error "alarms"
  .ok { reason := reason, alarms := alarms }

/-- `QuorumEndangeredQueue` from `src/responses.rs`
    (renames `virtual_host` → `vhost`, `type` → `queue_type`). -/
structure QuorumEndangeredQueue where
  name : String
  vhost : String
  queue_type : String
  deriving DecidableEq

/-- The derived `Deserialize` of `QuorumEndangeredQueue`. -/
def QuorumEndangeredQueue.decode (j : Json) :
    Except String QuorumEndangeredQueue :=
  match j with
  | .obj m => do
      let name ← getString m "name"
      let vhost ← getString m "virtual_host"
      let queue_type ← getString m "type"
      .ok { name := name, vhost := vhost, queue_type := queue_type }
  | _ => .error "map"

/-- Decode a JSON array of endangered-queue records. -/
def decodeEndangeredQueues : List Json → Except String (List QuorumEndangeredQueue)
  | [] => .ok []
  | j :: rest => do
      let q ← QuorumEndangeredQueue.decode j
      let tail ← decodeEndangeredQueues rest
      .ok (q :: tail)

/-- `QuorumCriticalityCheckDetails` from `src/responses.rs`. -/
structure QuorumCriticalityCheckDetails where
  reason : String
  queues : List QuorumEndangeredQueue
  deriving DecidableEq

/-- The derived `Deserialize` of `QuorumCriticalityCheckDetails`. -/
def QuorumCriticalityCheckDetails.decode (m : Jmap) :
    Except String QuorumCriticalityCheckDetails := do
  let reason ← getString m "reason"
  let queues ←
    match mapLookup m "queues" with
    | some (.arr xs) => decodeEndangeredQueues xs
    | some _ => .error "queues"
    | none => .error "queues"
  .ok { reason := reason, queues := queues }

/-- `HealthCheckFailureDetails` from `src/responses.rs`. -/
inductive HealthCheckFailureDetails where
  | AlarmCheck : ClusterAlarmCheckDetails → HealthCheckFailureDetails
  | NodeIsQuorumCritical : QuorumCriticalityCheckDetails → HealthCheckFailureDetails
  deriving DecidableEq

/-- Modelled from the spec: the decode driver that turns a health-check
    failure payload into `HealthCheckFailureDetails` lives in the HTTP client
    module, which is not part of the three source files under review (only
    the payload type declarations are). Per the spec, the union is decoded
    with no explicit discriminator field: the variant is inferred from which
    evidence field is present — an `alarms` list selects the alarm-evidence
    shape, a `queues` list selects the quorum-criticality shape. The two
    evidence shapes themselves are decoded exactly as declared in
    `src/responses.rs`. -/
def HealthCheckFailureDetails.decode (j : Json) :
    Except String HealthCheckFailureDetails :=
  match j with
  | .obj m =>
      match mapLookup m "alarms" with
      | some _ => do
          let d ← ClusterAlarmCheckDetails.decode m
          .ok (HealthCheckFailureDetails.AlarmCheck d)
      | none =>
          match mapLookup m "queues" with
          | some _ => do
              let d ← QuorumCriticalityCheckDetails.decode m
              .ok (HealthCheckFailureDetails.NodeIsQuorumCritical d)
          | none => .error "alarms"
  | _ => .error "map"

/-! ## Theorems -/

theorem except_bind_eq_ok_iff {ε α β : Type} (x : Except ε α)
    (f : α → Except ε β) (b : β) :
    (x >>= f) = .ok b ↔ ∃ a, x = .ok a ∧ f a = .ok b := by
  cases x with
  | error e =>
      constructor
      · intro h; exact absurd h (by simp [Bind.bind, Except.bind])
      · rintro ⟨a, ha, -⟩; exact absurd ha (by simp)
  | ok a =>
      constructor
      · intro h; exact ⟨a, rfl, h⟩
      · rintro ⟨a', ha, hf⟩
        obtain rfl : a = a' := by simpa using ha
        exact hf

/-- C1: `QueueParams::combined_args` inserts the `x-queue-type` marker first
    and then appends the caller's map, so a caller-supplied `x-queue-type`
    entry wins post-merge, every caller entry under another key is preserved,
    and the marker is present whenever the caller does not supply it.
    (A `serde_json::Map` has at most one entry per key, hence the `Nodup`
    hypothesis on the caller's keys.) -/
theorem combined_args_marker_first_caller_wins (m : Jmap) (t : QueueType)
    (hnd : (m.map Prod.fst).Nodup) :
    ∃ rm, QueueParams.combined_args (some m) t = some rm ∧
      (∀ k v, mapLookup m k = some v → mapLookup rm k = some v) ∧
      (mapLookup m "x-queue-type" = none →
        mapLookup rm "x-queue-type" = some t.toJson) ∧
      (∀ k, k ≠ "x-queue-type" → mapLookup m k = none →
        mapLookup rm k = none) := by
  refine ⟨mapAppend (mapInsert [] "x-queue-type" t.toJson) m, rfl, ?_, ?_, ?_⟩
  · intro k v hv
    rw [mapLookup_mapAppend _ _ _ hnd, hv]
  · intro hnone
    rw [mapLookup_mapAppend _ _ _ hnd, hnone]
    simp [mapLookup_mapInsert, mapLookup]
  · intro k hk hnone
    rw [mapLookup_mapAppend _ _ _ hnd, hnone]
    simp [mapLookup_mapInsert, mapLookup, hk]

theorem combined_args_marker_first_caller_wins_witness :
    ∃ rm, QueueParams.combined_args
        (some [("x-queue-type", Json.str "classic"),
               ("x-max-length", Json.num 10000)]) QueueType.Quorum = some rm ∧
      mapLookup rm "x-queue-type" = some (Json.str "classic") ∧
      mapLookup rm "x-max-length" = some (Json.num 10000) := by
  obtain ⟨rm, hrm, hpres, -, -⟩ :=
    combined_args_marker_first_caller_wins
      [("x-queue-type", Json.str "classic"), ("x-max-length", Json.num 10000)]
      QueueType.Quorum (by decide)
  exact ⟨rm, hrm, hpres _ _ rfl, hpres _ _ rfl⟩

/-- C2: for every known (non-extension) variant of every enumeration in the
    vocabulary codec, decoding the encoded string yields the variant back. -/
theorem decode_encode_roundtrip :
    (∀ v : SupportedProtocol, v.isKnown = true →
       SupportedProtocol.fromStr v.toStr = v) ∧
    (∀ v : ExchangeType, v.isKnown = true →
       ExchangeType.fromStr v.toStr = v) ∧
    (∀ v : QueueType, QueueType.fromStr v.toStr = v) ∧
    (∀ v : BindingDestinationType,
       BindingDestinationType.fromStr v.toStr = v) ∧
    (∀ v : PolicyTarget, PolicyTarget.fromStr v.toStr = v) ∧
    (∀ v : VirtualHostLimitTarget,
       VirtualHostLimitTarget.fromStr v.toStr = v) ∧
    (∀ v : UserLimitTarget, UserLimitTarget.fromStr v.toStr = v) := by
  refine ⟨?_, ?_, ?_, ?_, ?_, ?_, ?_⟩
  · intro v h
    cases v <;> first | rfl | simp [SupportedProtocol.isKnown] at h
  · intro v h
    cases v <;> first | rfl | simp [ExchangeType.isKnown] at h
  · intro v; cases v <;> rfl
  · intro v; cases v <;> rfl
  · intro v; cases v <;> rfl
  · intro v; cases v <;> rfl
  · intro v; cases v <;> rfl

theorem decode_encode_roundtrip_witness :
    SupportedProtocol.fromStr (SupportedProtocol.toStr .AMQPWithTLS)
        = .AMQPWithTLS ∧
    ExchangeType.fromStr (ExchangeType.toStr .ConsistentHashing)
        = .ConsistentHashing :=
  ⟨decode_encode_roundtrip.1 .AMQPWithTLS rfl,
   decode_encode_roundtrip.2.1 .ConsistentHashing rfl⟩

/-- C3: for the two open enumerations with an extension variant, any string
    outside the known canonical set decodes to the extension variant carrying
    exactly that string, and re-encoding it reproduces the string. -/
theorem extension_roundtrip
    (s : String) :
    (s ∉ supportedProtocolKnownStrings →
       SupportedProtocol.fromStr s = .Other s ∧
       (SupportedProtocol.fromStr s).toStr = s) ∧
    (s ∉ exchangeTypeKnownStrings →
       ExchangeType.fromStr s = .Plugin s ∧
       (ExchangeType.fromStr s).toStr = s) := by
  constructor
  · intro h
    simp only [supportedProtocolKnownStrings, List.mem_cons,
      List.not_mem_nil, or_false, not_or] at h
    obtain ⟨h1, h2, h3, h4, h5, h6, h7, h8, h9, h10, h11, h12, h13, h14,
      h15, h16, h17⟩ := h
    have hd : SupportedProtocol.fromStr s = .Other s := by
      simp [SupportedProtocol.fromStr, h1, h2, h3, h4, h5, h6, h7, h8, h9,
        h10, h11, h12, h13, h14, h15, h16, h17]
    exact ⟨hd, by rw [hd]; rfl⟩
  · intro h
    simp only [exchangeTypeKnownStrings, List.mem_cons,
      List.not_mem_nil, or_false, not_or] at h
    obtain ⟨h1, h2, h3, h4, h5, h6, h7, h8, h9, h10, h11, h12⟩ := h
    have hd : ExchangeType.fromStr s = .Plugin s := by
      simp [ExchangeType.fromStr, h1, h2, h3, h4, h5, h6, h7, h8, h9,
        h10, h11, h12]
    exact ⟨hd, by rw [hd]; rfl⟩

theorem extension_roundtrip_witness :
    SupportedProtocol.fromStr "sip/custom" = .Other "sip/custom" ∧
    (SupportedProtocol.fromStr "sip/custom").toStr = "sip/custom" ∧
    ExchangeType.fromStr "x-my-plugin" = .Plugin "x-my-plugin" ∧
    (ExchangeType.fromStr "x-my-plugin").toStr = "x-my-plugin" := by
  obtain ⟨ha, hb⟩ := (extension_roundtrip "sip/custom").1 (by decide)
  obtain ⟨hc, hd⟩ := (extension_roundtrip "x-my-plugin").2 (by decide)
  exact ⟨ha, hb, hc, hd⟩

/-- C4: for every string outside the known canonical set of the closed
    enumerations, decoding never fails and yields the fixed default variant:
    `QueueType::Classic`, `BindingDestinationType::Queue`,
    `PolicyTarget::Queues`, `VirtualHostLimitTarget::MaxConnections`,
    `UserLimitTarget::MaxConnections`. -/
theorem closed_enum_unknown_defaults (s : String) :
    (s ∉ ["classic", "quorum", "stream"] →
       QueueType.fromStr s = .Classic) ∧
    (s ∉ ["queue", "exchange"] →
       BindingDestinationType.fromStr s = .Queue) ∧
    (s ∉ ["queues", "classic_queues", "quorum_queues", "streams",
          "exchanges", "all"] →
       PolicyTarget.fromStr s = .Queues) ∧
    (s ∉ ["max-connections", "max-queues"] →
       VirtualHostLimitTarget.fromStr s = .MaxConnections) ∧
    (s ∉ ["max-connections", "max-channels"] →
       UserLimitTarget.fromStr s = .MaxConnections) := by
  refine ⟨?_, ?_, ?_, ?_, ?_⟩ <;> intro h <;>
    simp only [List.mem_cons, List.not_mem_nil, or_false, not_or] at h
  · obtain ⟨h1, h2, h3⟩ := h
    simp [QueueType.fromStr, h1, h2, h3]
  · obtain ⟨h1, h2⟩ := h
    simp [BindingDestinationType.fromStr, h1, h2]
  · obtain ⟨h1, h2, h3, h4, h5, h6⟩ := h
    simp [PolicyTarget.fromStr, h1, h2, h3, h4, h5, h6]
  · obtain ⟨h1, h2⟩ := h
    simp [VirtualHostLimitTarget.fromStr, h1, h2]
  · obtain ⟨h1, h2⟩ := h
    simp [UserLimitTarget.fromStr, h1, h2]

theorem closed_enum_unknown_defaults_witness :
    QueueType.fromStr "delta" = .Classic ∧
    BindingDestinationType.fromStr "delta" = .Queue ∧
    PolicyTarget.fromStr "delta" = .Queues ∧
    VirtualHostLimitTarget.fromStr "delta" = .MaxConnections ∧
    UserLimitTarget.fromStr "delta" = .MaxConnections :=
  ⟨(closed_enum_unknown_defaults "delta").1 (by decide),
   (closed_enum_unknown_defaults "delta").2.1 (by decide),
   (closed_enum_unknown_defaults "delta").2.2.1 (by decide),
   (closed_enum_unknown_defaults "delta").2.2.2.1 (by decide),
   (closed_enum_unknown_defaults "delta").2.2.2.2 (by decide)⟩

/-- C5: `QueueParams::new_quorum_queue("q1", None)` yields durable == true,
    auto_delete == false, exclusive == false, and an argument map holding
    exactly the single entry `"x-queue-type" ↦ "quorum"`. -/
theorem new_quorum_queue_q1_defaults :
    QueueParams.new_quorum_queue "q1" none =
      { name := "q1", queue_type := QueueType.Quorum, durable := true,
        auto_delete := false, exclusive := false,
        arguments := some [("x-queue-type", Json.str "quorum")] } := rfl

/-- C6, counterexample to the claim as stated: the claim asserts a sequence
    payload of any length, including non-empty, decodes to the empty map and
    never fails; but `visit_seq` leaves the sequence unconsumed, so a
    one-element sequence is a decode failure for both fields, at the field
    decoders and inside full record decodes. -/
theorem map_or_seq_nonempty_seq_fails :
    deserialize_message_properties (.arr [Json.null])
        = .error "invalid length" ∧
    deserialize_runtime_parameter_value (.arr [Json.null])
        = .error "invalid length" ∧
    RuntimeParameter.decode
        (.obj [("name", .str "p1"), ("vhost", .str "/"),
               ("component", .str "federation"),
               ("value", .arr [Json.null])])
        = .error "invalid length" ∧
    GetMessage.decode
        (.obj [("payload_bytes", .num 12), ("redelivered", .bool false),
               ("exchange", .str "amq.topic"), ("routing_key", .str "rk"),
               ("message_count", .num 3),
               ("properties", .arr [Json.null]),
               ("payload", .str "hello"),
               ("payload_encoding", .str "string")])
        = .error "invalid length" :=
  ⟨rfl, rfl, rfl, rfl⟩

/-- C6 as amended: the two fields decoded through `deserialize_map_or_seq`
    (`GetMessage.properties` and `RuntimeParameter.value`) decode a map
    payload to exactly its entries, and an empty sequence payload to the
    empty default map without a decode failure; shown both for the field
    decoders and for full record decodes through them. (A non-empty sequence
    is a decode failure, see the counterexample.) -/
theorem map_or_seq_field_tolerance :
    (∀ kvs : Jmap, deserialize_message_properties (.obj kvs) = .ok kvs ∧
       deserialize_runtime_parameter_value (.obj kvs) = .ok kvs) ∧
    (deserialize_message_properties (.arr []) = .ok [] ∧
       deserialize_runtime_parameter_value (.arr []) = .ok []) ∧
    (∀ (n v c : String) (kvs : Jmap),
       RuntimeParameter.decode
           (.obj [("name", .str n), ("vhost", .str v), ("component", .str c),
                  ("value", .obj kvs)]) =
         .ok { name := n, vhost := v, component := c, value := kvs }) ∧
    (∀ n v c : String,
       RuntimeParameter.decode
           (.obj [("name", .str n), ("vhost", .str v), ("component", .str c),
                  ("value", .arr [])]) =
         .ok { name := n, vhost := v, component := c, value := [] }) ∧
    (∀ ex rk p pe : String,
       GetMessage.decode
           (.obj [("payload_bytes", .num 12), ("redelivered", .bool false),
                  ("exchange", .str ex), ("routing_key", .str rk),
                  ("message_count", .num 3), ("properties", .arr []),
                  ("payload", .str p), ("payload_encoding", .str pe)]) =
         .ok { payload_bytes := 12, redelivered := false, exchange := ex,
               routing_key := rk, message_count := 3, properties := [],
               payload := p, payload_encoding := pe }) :=
  ⟨fun _ => ⟨rfl, rfl⟩, ⟨rfl, rfl⟩, fun _ _ _ _ => rfl,
   fun _ _ _ => rfl, fun _ _ _ _ => rfl⟩

/-- C7: a health-check failure payload decodes with no explicit discriminator
    field: alarm-evidence fields (`reason` plus an `alarms` list of
    node/resource records) select the `AlarmCheck` variant, quorum-evidence
    fields (`reason` plus a `queues` list of endangered-queue records) select
    the `NodeIsQuorumCritical` variant. -/
theorem health_check_failure_details_untagged
    (reason node resource qname qvhost qtype : String) :
    HealthCheckFailureDetails.decode
        (.obj [("reason", .str reason),
               ("alarms", .arr [.obj [("node", .str node),
                                      ("resource", .str resource)]])]) =
      .ok (.AlarmCheck { reason := reason,
                         alarms := [{ node := node, resource := resource }] }) ∧
    HealthCheckFailureDetails.decode
        (.obj [("reason", .str reason),
               ("queues", .arr [.obj [("name", .str qname),
                                      ("virtual_host", .str qvhost),
                                      ("type", .str qtype)]])]) =
      .ok (.NodeIsQuorumCritical
            { reason := reason,
              queues := [{ name := qname, vhost := qvhost,
                           queue_type := qtype }] }) :=
  ⟨rfl, rfl⟩

/-- C8 (the claim as stated is refuted by the decode/encode functions): the
    `From` impls pair `STOMPOverWebsockets` with the constant
    `"http/stomp-mqtt"`, not `"http/web-stomp"`: encoding the variant yields
    `"http/stomp-mqtt"`, and decoding `"http/web-stomp"` yields the extension
    variant rather than `STOMPOverWebsockets`. -/
theorem stomp_over_websockets_wire_string_mismatch :
    SupportedProtocol.toStr .STOMPOverWebsockets = "http/stomp-mqtt" ∧
    SupportedProtocol.toStr .STOMPOverWebsockets ≠ "http/web-stomp" ∧
    SupportedProtocol.fromStr "http/web-stomp" = .Other "http/web-stomp" ∧
    SUPPORTED_PROTOCOL_STOMP_OVER_WEBSOCKETS = "http/stomp-mqtt" := by
  refine ⟨rfl, by decide, by decide, rfl⟩

/-- C9: every public `QueueParams` constructor pins the exclusivity flag to
    false, for every choice of name, queue type, durability, auto-delete and
    caller argument map. -/
theorem queue_params_never_exclusive :
    (∀ (name : String) (qt : QueueType) (d ad : Bool) (args : XArguments),
       (QueueParams.new name qt d ad args).exclusive = false) ∧
    (∀ (name : String) (args : XArguments),
       (QueueParams.new_quorum_queue name args).exclusive = false ∧
       (QueueParams.new_stream name args).exclusive = false ∧
       (QueueParams.new_durable_classic_queue name args).exclusive = false) :=
  ⟨fun _ _ _ _ _ => rfl, fun _ _ => ⟨rfl, rfl, rfl⟩⟩

/-- C10: a connection payload with no `state` field decodes successfully with
    the sentinel `"?"` as the state, and a queue-info payload with no `node`
    field decodes successfully with `"?"` as the node; the absent field is
    the sentinel string, not an optional value and not a failure. -/
theorem missing_state_and_node_decode_to_sentinel :
    (∀ (m : Jmap) (c : Connection), mapLookup m "state" = none →
       Connection.decode (.obj m) = .ok c → c.state = undefined) ∧
    (∀ (m : Jmap) (q : QueueInfo), mapLookup m "node" = none →
       QueueInfo.decode (.obj m) = .ok q → q.node = undefined) ∧
    (∀ name node protocol user host peer_host : String,
       Connection.decode
           (.obj [("name", .str name), ("node", .str node),
                  ("protocol", .str protocol), ("user", .str user),
                  ("connected_at", .num 1700000000000),
                  ("host", .str host), ("port", .num 5672),
                  ("peer_host", .str peer_host), ("peer_port", .num 49152),
                  ("channel_max", .num 2047),
                  ("client_properties", .obj [])]) =
         .ok { name := name, node := node, state := undefined,
               protocol := protocol, username := user,
               connected_at := 1700000000000, server_hostname := host,
               server_port := 5672, client_hostname := peer_host,
               client_port := 49152, channel_max := 2047, channel_count := 0,
               client_properties :=
                 { connection_name := "", platform := "", product := "",
                   version := "", capabilities := none } }) ∧
    (∀ (name vhost qt : String) (d ad ex : Bool),
       QueueInfo.decode
           (.obj [("name", .str name), ("vhost", .str vhost),
                  ("type", .str qt), ("durable", .bool d),
                  ("auto_delete", .bool ad), ("exclusive", .bool ex),
                  ("arguments", .obj [])]) =
         .ok { name := name, vhost := vhost, queue_type := qt, durable := d,
               auto_delete := ad, exclusive := ex, arguments := [],
               node := undefined, state := "", leader := none,
               members := none, online := none, memory := 0,
               consumer_count := 0, consumer_utilisation := 0,
               exclusive_consumer_tag := none, policy := none,
               message_bytes := 0, message_bytes_persistent := 0,
               message_bytes_ram := 0, message_bytes_ready := 0,
               message_bytes_unacknowledged := 0, message_count := 0,
               on_disk_message_count := 0, in_memory_message_count := 0,
               unacknowledged_message_count := 0 }) := by
  refine ⟨?_, ?_, ?_, ?_⟩
  · intro m c hstate h
    simp only [Connection.decode, except_bind_eq_ok_iff] at h
    obtain ⟨name, -, node, -, state, hst, protocol, -, user, -, ca, -,
      host, -, port, -, chost, -, cport, -, cmax, -, ccount, -, cp, -,
      hfin⟩ := h
    simp only [getStringD, hstate, Except.ok.injEq] at hst
    simp only [Except.ok.injEq] at hfin
    subst hfin
    exact hst.symm
  · intro m q hnode h
    simp only [QueueInfo.decode, except_bind_eq_ok_iff] at h
    obtain ⟨name, -, vhost, -, qt, -, dur, -, ad, -, ex, -, args, -,
      node, hnd, state, -, leader, -, members, -, online, -, memory, -,
      ccount, -, cutil, -, etag, -, pol, -, mb, -, mbp, -, mbr, -, mbrd, -,
      mbu, -, mc, -, odc, -, imc, -, umc, -, hfin⟩ := h
    simp only [getStringD, hnode, Except.ok.injEq] at hnd
    simp only [Except.ok.injEq] at hfin
    subst hfin
    exact hnd.symm
  · intro name node protocol user host peer_host
    rfl
  · intro name vhost qt d ad ex
    rfl

theorem missing_state_and_node_decode_to_sentinel_witness :
    ∃ (c : Connection) (q : QueueInfo),
      Connection.decode
          (.obj [("name", .str "c1"), ("node", .str "rabbit@n1"),
                 ("protocol", .str "AMQP 0-9-1"), ("user", .str "guest"),
                 ("connected_at", .num 1700000000000),
                 ("host", .str "h1"), ("port", .num 5672),
                 ("peer_host", .str "h2"), ("peer_port", .num 49152),
                 ("channel_max", .num 2047),
                 ("client_properties", .obj [])]) = .ok c ∧
      c.state = undefined ∧
      QueueInfo.decode
          (.obj [("name", .str "q1"), ("vhost", .str "/"),
                 ("type", .str "classic"), ("durable", .bool true),
                 ("auto_delete", .bool false), ("exclusive", .bool false),
                 ("arguments", .obj [])]) = .ok q ∧
      q.node = undefined := by
  have hc := missing_state_and_node_decode_to_sentinel.2.2.1
    "c1" "rabbit@n1" "AMQP 0-9-1" "guest" "h1" "h2"
  have hq := missing_state_and_node_decode_to_sentinel.2.2.2
    "q1" "/" "classic" true false false
  refine ⟨_, _, hc, ?_, hq, ?_⟩
  · exact missing_state_and_node_decode_to_sentinel.1
      [("name", .str "c1"), ("node", .str "rabbit@n1"),
       ("protocol", .str "AMQP 0-9-1"), ("user", .str "guest"),
       ("connected_at", .num 1700000000000),
       ("host", .str "h1"), ("port", .num 5672),
       ("peer_host", .str "h2"), ("peer_port", .num 49152),
       ("channel_max", .num 2047), ("client_properties", .obj [])]
      _ rfl hc
  · exact missing_state_and_node_decode_to_sentinel.2.1
      [("name", .str "q1"), ("vhost", .str "/"),
       ("type", .str "classic"), ("durable", .bool true),
       ("auto_delete", .bool false), ("exclusive", .bool false),
       ("arguments", .obj [])]
      _ rfl hq
